import Mathlib

/-!
Shallow embedding of the sql-schema-builder core: the data model (types.ts),
the SQL generator (sqlGenerator.ts), the table/entity mode converter and the
advisory analysis (RecommendationPanel.analyzeSchema), together with theorems
checking the specification's claims about them.
-/

set_option maxRecDepth 100000

namespace SchemaBuilder

/-- Logical column data types (types.ts `DataType`). -/
inductive DataType
  | TEXT | INTEGER | LONG | DOUBLE | CURRENCY | DATETIME
  | BOOLEAN | AUTOINCREMENT | MEMO | OLE
deriving DecidableEq, Repr

/-- Attribute kinds of the conceptual model (types.ts `AttributeType`). -/
inductive AttributeType
  | PRIMARY | NORMAL | MULTIVALUED | DERIVED
deriving DecidableEq, Repr

/-- Relationship cardinalities (types.ts: the string union of the
`cardinality` field). -/
inductive Cardinality
  | oneToOne   -- the string literal 1:1
  | oneToN     -- 1:N
  | nToOne     -- N:1
  | nToM       -- N:M
deriving DecidableEq, Repr

/-- Referential actions for ON DELETE / ON UPDATE (types.ts). -/
inductive RefAction
  | cascade | setNull | restrict | noAction
deriving DecidableEq, Repr

/-- SQL dialects (types.ts `SQLDialect`). -/
inductive SQLDialect
  | ACCESS | SQLITE | MYSQL | POSTGRESQL
deriving DecidableEq, Repr

/-- types.ts `Column`.  The optional FK marker fields (`isForeignKey`,
`referencesTable`, `referencesColumn`) are never read by any of the embedded
functions and are omitted. -/
structure Column where
  id : String
  name : String
  type : DataType
  primaryKey : Bool
  nullable : Bool
  unique : Bool
  autoIncrement : Bool
deriving DecidableEq, Repr

/-- types.ts `Table`. -/
structure Table where
  id : String
  name : String
  columns : List Column
  x : Int
  y : Int
deriving DecidableEq, Repr

/-- types.ts `Relationship`. -/
structure Relationship where
  id : String
  sourceTableId : String
  sourceColumnId : String
  targetTableId : String
  targetColumnId : String
  cardinality : Cardinality
  sourceOptional : Bool
  targetOptional : Bool
  onDelete : RefAction
  onUpdate : RefAction
deriving DecidableEq, Repr

/-- types.ts `Schema`. -/
structure Schema where
  tables : List Table
  relationships : List Relationship
deriving DecidableEq, Repr

/-- types.ts `Attribute` (conceptual mode).  `dataType` is the optional
preserved logical type. -/
structure Attribute where
  id : String
  name : String
  type : AttributeType
  dataType : Option DataType
deriving DecidableEq, Repr

/-- types.ts `Entity` (conceptual mode). -/
structure Entity where
  id : String
  name : String
  attributes : List Attribute
  x : Int
  y : Int
deriving DecidableEq, Repr

/-- types.ts `ConceptualRelationship`. -/
structure ConceptualRelationship where
  id : String
  sourceEntityId : String
  targetEntityId : String
  cardinality : Cardinality
  sourceOptional : Bool
  targetOptional : Bool
  role : String
deriving DecidableEq, Repr

/-- The string printed for a referential action (the literal values of the
`onDelete` / `onUpdate` union type). -/
def RefAction.str : RefAction → String
  | .cascade => "CASCADE"
  | .setNull => "SET NULL"
  | .restrict => "RESTRICT"
  | .noAction => "NO ACTION"

/-- The dialect name interpolated into the generated header. -/
def SQLDialect.str : SQLDialect → String
  | .ACCESS => "ACCESS"
  | .SQLITE => "SQLITE"
  | .MYSQL => "MYSQL"
  | .POSTGRESQL => "POSTGRESQL"

/-- sqlGenerator.ts `mapDataType`: the fixed logical-to-physical type map.
Every member of the closed `DataType` union has an entry, so the
`|| 'VARCHAR(255)'` fallback of the source is unreachable here. -/
def mapDataType : DataType → String
  | .TEXT => "VARCHAR(255)"
  | .INTEGER => "INTEGER"
  | .LONG => "LONG"
  | .DOUBLE => "DOUBLE"
  | .CURRENCY => "CURRENCY"
  | .DATETIME => "DATETIME"
  | .BOOLEAN => "BIT"
  | .AUTOINCREMENT => "COUNTER"
  | .MEMO => "LONGTEXT"
  | .OLE => "OLEOBJECT"

/-- `tables.find(t => t.id === id)` -/
def findTable (tables : List Table) (tid : String) : Option Table :=
  tables.find? (fun t => t.id == tid)

/-- `table.columns.find(c => c.id === cid)` -/
def findColumnById (t : Table) (cid : String) : Option Column :=
  t.columns.find? (fun c => c.id == cid)

/-- `table.columns.find(c => c.primaryKey)` -/
def findPK (t : Table) : Option Column :=
  t.columns.find? (fun c => c.primaryKey)

/-- sqlGenerator.ts `generateColumnDef`. -/
def generateColumnDef (column : Column) : String :=
  let d0 := "[" ++ column.name ++ "] " ++ mapDataType column.type
  let d1 := if column.autoIncrement && column.type == DataType.AUTOINCREMENT
            then d0 ++ " COUNTER" else d0
  let d2 := if !column.nullable then d1 ++ " NOT NULL" else d1
  if column.unique && !column.primaryKey then d2 ++ " UNIQUE" else d2

/-- sqlGenerator.ts `generateCreateTable`. -/
def generateCreateTable (table : Table) : String :=
  let s0 := "CREATE TABLE [" ++ table.name ++ "] (\n"
  let columnDefs := table.columns.map generateColumnDef
  let s1 := s0 ++ String.intercalate ",\n" (columnDefs.map (fun d => "    " ++ d))
  let primaryKeyColumns := table.columns.filter (fun c => c.primaryKey)
  let s2 :=
    if primaryKeyColumns.length > 0 then
      let pkCols := String.intercalate ", "
        (primaryKeyColumns.map (fun c => "[" ++ c.name ++ "]"))
      s1 ++ ",\n    CONSTRAINT [PK_" ++ table.name ++ "] PRIMARY KEY (" ++ pkCols ++ ")"
    else s1
  s2 ++ "\n);"

/-- sqlGenerator.ts `generateJunctionTable`. -/
def generateJunctionTable (rel : Relationship) (tables : List Table) : String :=
  match findTable tables rel.sourceTableId, findTable tables rel.targetTableId with
  | some sourceTable, some targetTable =>
    match findPK sourceTable, findPK targetTable with
    | some sourcePK, some targetPK =>
      let junctionName := sourceTable.name ++ "_" ++ targetTable.name
      let sourceType := mapDataType sourcePK.type
      let targetType := mapDataType targetPK.type
      let sourceColName := sourcePK.name
      let targetColName := targetPK.name
      "CREATE TABLE [" ++ junctionName ++ "] (\n" ++
      "    [" ++ sourceColName ++ "] " ++ sourceType ++ " NOT NULL,\n" ++
      "    [" ++ targetColName ++ "] " ++ targetType ++ " NOT NULL,\n" ++
      "    CONSTRAINT [PK_" ++ junctionName ++ "] PRIMARY KEY ([" ++
        sourceColName ++ "], [" ++ targetColName ++ "]),\n" ++
      "    CONSTRAINT [FK_" ++ junctionName ++ "_" ++ sourceTable.name ++
        "] FOREIGN KEY ([" ++ sourceColName ++ "]) REFERENCES [" ++
        sourceTable.name ++ "]([" ++ sourcePK.name ++ "]),\n" ++
      "    CONSTRAINT [FK_" ++ junctionName ++ "_" ++ targetTable.name ++
        "] FOREIGN KEY ([" ++ targetColName ++ "]) REFERENCES [" ++
        targetTable.name ++ "]([" ++ targetPK.name ++ "])\n" ++
      ");\n\n"
    | _, _ => ""
  | _, _ => ""

/-- sqlGenerator.ts `generateHeader`.  The impure `new Date().toLocaleString`
call is made an explicit `now` parameter of the embedding. -/
def generateHeader (dialect : SQLDialect) (now : String) : String :=
  "-- SQL Schema Generated by SQL Schema Builder\n-- Dialect: " ++
  dialect.str ++ "\n-- Generated: " ++ now ++ "\n\n"

/-- The FK column record built by `addForeignKeyFields` once a placement has
been determined (sqlGenerator.ts lines 113-121). -/
def mkFKColumn (rel : Relationship) (manyTableId fkColumnName : String)
    (pkColumn : Column) : Column :=
  { id := "fk-" ++ rel.id ++ "-" ++ manyTableId
    name := fkColumnName
    type := pkColumn.type
    primaryKey := false
    nullable := rel.sourceOptional || rel.targetOptional
    unique := rel.cardinality == Cardinality.oneToOne
    autoIncrement := false }

/-- `tables[tableIndex] = { ...tables[tableIndex], columns: [...columns, fk] }`
with `tableIndex = tables.findIndex(t => t.id === manyTableId)`: append the
column to the first table having the given id. -/
def appendColumnToFirst : List Table → String → Column → List Table
  | [], _, _ => []
  | t :: rest, tid, fk =>
    if t.id == tid then { t with columns := t.columns ++ [fk] } :: rest
    else t :: appendColumnToFirst rest tid fk

/-- The body of the `for (const rel of schema.relationships)` loop of
sqlGenerator.ts `addForeignKeyFields`, acting on the working `tables` array. -/
def addFKStep (tables : List Table) (rel : Relationship) : List Table :=
  match findTable tables rel.sourceTableId, findTable tables rel.targetTableId with
  | some sourceTable, some targetTable =>
    match findColumnById sourceTable rel.sourceColumnId,
          findColumnById targetTable rel.targetColumnId with
    | some _, some _ =>
      if rel.cardinality == Cardinality.nToM then tables
      else
        match findPK sourceTable, findPK targetTable with
        | some sourcePK, some targetPK =>
          -- the switch over rel.cardinality determining the "many" side
          let placement : Option (String × String × Column) :=
            match rel.cardinality with
            | .oneToN => some (rel.targetTableId, sourcePK.name, sourcePK)
            | .nToOne => some (rel.sourceTableId, targetPK.name, targetPK)
            | .oneToOne =>
              if rel.targetOptional then
                some (rel.targetTableId, sourcePK.name, sourcePK)
              else if rel.sourceOptional then
                some (rel.sourceTableId, targetPK.name, targetPK)
              else none
            | .nToM => none
          match placement with
          | none => tables
          | some (manyTableId, fkColumnName, pkColumn) =>
            match findTable tables manyTableId with
            | some existingTable =>
              if existingTable.columns.any (fun c => c.name == fkColumnName) then
                tables
              else
                appendColumnToFirst tables manyTableId
                  (mkFKColumn rel manyTableId fkColumnName pkColumn)
            | none => tables
        | _, _ => tables
    | _, _ => tables
  | _, _ => tables

/-- sqlGenerator.ts `addForeignKeyFields`: fold the loop body over the
relationship list; the initial `tables.map(t => ({...t, columns: [...t.columns]}))`
shallow copy is the identity on values. -/
def addForeignKeyFields (schema : Schema) : Schema :=
  { tables := schema.relationships.foldl addFKStep schema.tables
    relationships := schema.relationships }

/-- sqlGenerator.ts `generateForeignKeyConstraint`. -/
def generateForeignKeyConstraint (rel : Relationship) (tables : List Table) : String :=
  match findTable tables rel.sourceTableId, findTable tables rel.targetTableId with
  | some sourceTable, some targetTable =>
    match findPK sourceTable, findPK targetTable with
    | some sourcePK, some targetPK =>
      if rel.cardinality == Cardinality.nToM then ""
      else
        let placement : Option (String × Table × Column) :=
          match rel.cardinality with
          | .oneToN => some (sourcePK.name, targetTable, sourcePK)
          | .nToOne => some (targetPK.name, sourceTable, targetPK)
          | .oneToOne =>
            if rel.targetOptional then some (sourcePK.name, targetTable, sourcePK)
            else if rel.sourceOptional then some (targetPK.name, sourceTable, targetPK)
            else none
          | .nToM => none
        match placement with
        | none => ""
        | some (fkColumnName, fkTable, pkColumn) =>
          let fkName := "FK_" ++ fkTable.name ++ "_" ++ targetTable.name
          let s0 := "ALTER TABLE [" ++ fkTable.name ++ "]\n" ++
            "    ADD CONSTRAINT [" ++ fkName ++ "] FOREIGN KEY ([" ++
            fkColumnName ++ "])\n" ++
            "    REFERENCES [" ++ targetTable.name ++ "]([" ++ pkColumn.name ++ "])"
          let s1 := if rel.onDelete != RefAction.noAction then
              s0 ++ "\n    ON DELETE " ++ rel.onDelete.str else s0
          let s2 := if rel.onUpdate != RefAction.noAction then
              s1 ++ "\n    ON UPDATE " ++ rel.onUpdate.str else s1
          s2 ++ ";"
    | _, _ => ""
  | _, _ => ""

/-- sqlGenerator.ts `generate`: header, junction tables for N:M
relationships, CREATE TABLE statements over the FK-resolved schema, then one
ALTER TABLE per non-N:M relationship whose constraint text is nonempty. -/
def generate (dialect : SQLDialect) (now : String) (schema : Schema) : String :=
  let nonMNRelationships :=
    schema.relationships.filter (fun rel => rel.cardinality != Cardinality.nToM)
  let mnRelationships :=
    schema.relationships.filter (fun rel => rel.cardinality == Cardinality.nToM)
  let junctionSQL := String.join
    (mnRelationships.map (fun rel => generateJunctionTable rel schema.tables ++ "\n"))
  let schemaWithFK := addForeignKeyFields
    { tables := schema.tables, relationships := nonMNRelationships }
  let createSQL := String.join
    (schemaWithFK.tables.map (fun t => generateCreateTable t ++ "\n\n"))
  let alterSQL := String.join
    (nonMNRelationships.map (fun rel =>
      let s := generateForeignKeyConstraint rel schemaWithFK.tables
      if s == "" then "" else s ++ "\n"))
  generateHeader dialect now ++ "\n\n" ++
    (junctionSQL ++ createSQL ++ alterSQL)

/-- Tables-to-entities direction: one attribute per column, attribute kind
PRIMARY iff the column was a primary key, the column's logical type preserved
in the auxiliary `dataType` field. -/
def tableToEntity (t : Table) : Entity :=
  { id := t.id
    name := t.name
    x := t.x
    y := t.y
    attributes := t.columns.map (fun col =>
      { id := col.id
        name := col.name
        type := if col.primaryKey then AttributeType.PRIMARY else AttributeType.NORMAL
        dataType := some col.type }) }

/-- Entities-to-tables direction: one column per attribute; the JS
`attr.dataType || (attr.type === 'PRIMARY' ? 'INTEGER' : 'TEXT')` default is
`Option.getD` (a present `dataType` is a non-empty string, hence truthy). -/
def entityToTable (e : Entity) : Table :=
  { id := e.id
    name := e.name
    x := e.x
    y := e.y
    columns := e.attributes.map (fun attr =>
      { id := attr.id
        name := attr.name
        type := attr.dataType.getD
          (if attr.type == AttributeType.PRIMARY then DataType.INTEGER else DataType.TEXT)
        primaryKey := attr.type == AttributeType.PRIMARY
        nullable := attr.type != AttributeType.PRIMARY
        unique := attr.type == AttributeType.PRIMARY
        autoIncrement := attr.type == AttributeType.PRIMARY }) }

/-- The remediation a finding's `action` closure is bound to (the engine's
findings carry a callback closing over the concrete table/entity,
modelled as data). -/
inductive Remediation
  | createJunctionTable (sourceTable targetTable : Table)
  | addConstraint (table : Table) (constraintType : String)
  | fixValidation (issue : String)
  | noRemediation
deriving DecidableEq, Repr

/-- A recommendation or validation issue pushed by `analyzeSchema`. -/
structure Finding where
  id : String
  kind : String
  title : String
  description : String
  severity : String
  remediation : Remediation
  actionLabel : String
deriving DecidableEq, Repr

/-- Whether `pat` matches at the head of `l`. -/
def leadMatch : List Char → List Char → Bool
  | [], _ => true
  | _ :: _, [] => false
  | p :: ps, c :: cs => p == c && leadMatch ps cs

/-- Whether `pat` occurs as a contiguous sublist of `l`. -/
def subOccurs (pat : List Char) : List Char → Bool
  | [] => leadMatch pat []
  | c :: cs => leadMatch pat (c :: cs) || subOccurs pat cs

/-- `s.includes(pat)`: substring occurrence. -/
def strIncludes (s pat : String) : Bool :=
  subOccurs pat.data s.data

/-- Check 1 (LOGICAL): N:M relationships without junction tables. -/
def nmRecommendations (tables : List Table) (relationships : List Relationship) :
    List Finding :=
  (relationships.filter (fun rel => rel.cardinality == Cardinality.nToM)).filterMap
    (fun rel =>
      match findTable tables rel.sourceTableId, findTable tables rel.targetTableId with
      | some sourceTable, some targetTable =>
        some { id := "rec-nm-" ++ rel.id
               kind := "n_m_relationship"
               title := "Связь многие-ко-многим обнаружена"
               description := "Связь между \"" ++ sourceTable.name ++ "\" и \"" ++
                 targetTable.name ++
                 "\" имеет мощность N:M. Рекомендуется создать промежуточную таблицу."
               severity := "high"
               remediation := .createJunctionTable sourceTable targetTable
               actionLabel := "Создать промежуточную таблицу" }
      | _, _ => none)

/-- Check 2 (LOGICAL): tables without a primary key. -/
def noPkIssues (tables : List Table) : List Finding :=
  (tables.filter (fun t => !(t.columns.any (fun col => col.primaryKey)))).map
    (fun t =>
      { id := "val-nopk-" ++ t.id
        kind := "no_primary_key"
        title := "Таблица без первичного ключа"
        description := "Таблица \"" ++ t.name ++ "\" не имеет первичного ключа."
        severity := "high"
        remediation := .addConstraint t "PRIMARY_KEY"
        actionLabel := "Добавить первичный ключ" })

/-- `columnNames.filter((name, i) => columnNames.indexOf(name) !== i)` is
non-empty exactly when some name occurs twice. -/
def hasDuplicate : List String → Bool
  | [] => false
  | x :: xs => xs.contains x || hasDuplicate xs

/-- Check 3 (LOGICAL): case-insensitively duplicate column names. -/
def dupColIssues (tables : List Table) : List Finding :=
  (tables.filter (fun t =>
      hasDuplicate (t.columns.map (fun col => col.name.toLower)))).map
    (fun t =>
      { id := "val-dupcol-" ++ t.id
        kind := "duplicate_columns"
        title := "Дублирующиеся имена колонок"
        description := "В таблице \"" ++ t.name ++ "\" найдены колонки с одинаковыми именами."
        severity := "medium"
        remediation := .fixValidation ("rename_duplicate_columns_" ++ t.id)
        actionLabel := "Исправить" })

/-- Check 4 (LOGICAL): relationships whose source-side column is not unique. -/
def missingIndexRecommendations (tables : List Table)
    (relationships : List Relationship) : List Finding :=
  relationships.filterMap (fun rel =>
    match findTable tables rel.sourceTableId with
    | some sourceTable =>
      match findColumnById sourceTable rel.sourceColumnId with
      | some fkColumn =>
        if !fkColumn.unique then
          some { id := "rec-index-" ++ rel.id
                 kind := "missing_index"
                 title := "Внешний ключ без индекса"
                 description := "Колонка \"" ++ fkColumn.name ++ "\" в таблице \"" ++
                   sourceTable.name ++
                   "\" используется как внешний ключ, но не имеет индекса."
                 severity := "medium"
                 remediation := .addConstraint sourceTable "INDEX"
                 actionLabel := "Добавить индекс" }
        else none
      | none => none
    | none => none)

/-- Check 5 (LOGICAL): TEXT columns whose name carries no length hint. -/
def textLengthRecommendations (tables : List Table) : List Finding :=
  (tables.filter (fun t =>
      (t.columns.filter (fun col =>
        col.type == DataType.TEXT && !(strIncludes col.name "length") &&
          !(strIncludes col.name "size"))).length > 0)).map
    (fun t =>
      { id := "rec-textlen-" ++ t.id
        kind := "text_length"
        title := "Текстовые поля без ограничения длины"
        description := "В таблице \"" ++ t.name ++
          "\" есть текстовые поля без указания максимальной длины."
        severity := "low"
        remediation := .addConstraint t "CHECK_LENGTH"
        actionLabel := "Добавить ограничения" })

/-- Conceptual check 1: entities without a primary attribute. -/
def conceptualNoPkIssues (entities : List Entity) : List Finding :=
  (entities.filter (fun e =>
      !(e.attributes.any (fun attr => attr.type == AttributeType.PRIMARY)))).map
    (fun e =>
      { id := "conc-nopk-" ++ e.id
        kind := "no_primary_key"
        title := "Сущность без первичного ключа"
        description := "Сущность \"" ++ e.name ++ "\" не имеет первичного ключа."
        severity := "high"
        remediation := .fixValidation ("add_primary_key_" ++ e.id)
        actionLabel := "Добавить первичный ключ" })

/-- Conceptual check 2: N:M conceptual relationships (informational). -/
def conceptualNmRecommendations (entities : List Entity)
    (conceptualRelationships : List ConceptualRelationship) : List Finding :=
  (conceptualRelationships.filter
      (fun rel => rel.cardinality == Cardinality.nToM)).filterMap
    (fun rel =>
      match entities.find? (fun e => e.id == rel.sourceEntityId),
            entities.find? (fun e => e.id == rel.targetEntityId) with
      | some sourceEntity, some targetEntity =>
        some { id := "conc-nm-" ++ rel.id
               kind := "n_m_relationship"
               title := "Связь многие-ко-многим в концептуальной схеме"
               description := "Связь между \"" ++ sourceEntity.name ++ "\" и \"" ++
                 targetEntity.name ++
                 "\" имеет мощность N:M. При преобразовании в логическую схему потребуется промежуточная таблица."
               severity := "info"
               remediation := .noRemediation
               actionLabel := "Пометить для преобразования" }
      | _, _ => none)

/-- RecommendationPanel `analyzeSchema`: returns
(recommendations, validationIssues), each list in push order. -/
def analyzeSchema (tables : List Table) (entities : List Entity)
    (relationships : List Relationship)
    (conceptualRelationships : List ConceptualRelationship)
    (schemaMode : String) : List Finding × List Finding :=
  if schemaMode == "LOGICAL" then
    (nmRecommendations tables relationships ++
       missingIndexRecommendations tables relationships ++
       textLengthRecommendations tables,
     noPkIssues tables ++ dupColIssues tables)
  else
    (conceptualNmRecommendations entities conceptualRelationships,
     conceptualNoPkIssues entities)

/-- The "Customer" table of the spec's concrete scenario: a single integer
primary-key column named id. -/
def customerTable : Table :=
  { id := "t-customer", name := "Customer"
    columns := [{ id := "c-cust-id", name := "id", type := .INTEGER,
                  primaryKey := true, nullable := false, unique := true,
                  autoIncrement := false }]
    x := 0, y := 0 }

/-- The "Invoice" table of the spec's concrete scenario: a single integer
primary-key column named id. -/
def invoiceTable : Table :=
  { id := "t-invoice", name := "Invoice"
    columns := [{ id := "c-inv-id", name := "id", type := .INTEGER,
                  primaryKey := true, nullable := false, unique := true,
                  autoIncrement := false }]
    x := 0, y := 0 }

/-- The 1:N Customer-to-Invoice relationship of the concrete scenario,
neither side optional. -/
def custInvoiceRel : Relationship :=
  { id := "r1", sourceTableId := "t-customer", sourceColumnId := "c-cust-id"
    targetTableId := "t-invoice", targetColumnId := "c-inv-id"
    cardinality := .oneToN, sourceOptional := false, targetOptional := false
    onDelete := .noAction, onUpdate := .noAction }

/-- The schema of the concrete Customer/Invoice scenario. -/
def custInvoiceSchema : Schema :=
  { tables := [customerTable, invoiceTable], relationships := [custInvoiceRel] }

/-- A table with no primary-key column, for exercising the advisory pass. -/
def chairTable : Table :=
  { id := "t-chair", name := "Chair"
    columns := [{ id := "c-seat", name := "seat", type := .TEXT,
                  primaryKey := false, nullable := true, unique := false,
                  autoIncrement := false }]
    x := 0, y := 0 }

/-- The integer primary-key column of the Student fixture. -/
def studentIdCol : Column :=
  { id := "c-stu-id", name := "id", type := .INTEGER, primaryKey := true,
    nullable := false, unique := true, autoIncrement := false }

/-- The integer primary-key column of the Course fixture. -/
def courseIdCol : Column :=
  { id := "c-crs-id", name := "id", type := .INTEGER, primaryKey := true,
    nullable := false, unique := true, autoIncrement := false }

/-- The "Student" table of the spec's N:M scenario. -/
def studentTable : Table :=
  { id := "t-student", name := "Student", columns := [studentIdCol], x := 0, y := 0 }

/-- The "Course" table of the spec's N:M scenario. -/
def courseTable : Table :=
  { id := "t-course", name := "Course", columns := [courseIdCol], x := 0, y := 0 }

/-- The N:M Student-to-Course relationship of the spec's scenario. -/
def stuCourseRel : Relationship :=
  { id := "r-sc", sourceTableId := "t-student", sourceColumnId := "c-stu-id"
    targetTableId := "t-course", targetColumnId := "c-crs-id"
    cardinality := .nToM, sourceOptional := false, targetOptional := false
    onDelete := .cascade, onUpdate := .cascade }

/-- The auto-increment primary-key column of the Author fixture. -/
def authorIdCol : Column :=
  { id := "c-au-id", name := "author_id", type := .AUTOINCREMENT,
    primaryKey := true, nullable := false, unique := true, autoIncrement := true }

/-- The Author fixture table. -/
def authorTable : Table :=
  { id := "t-author", name := "Author", columns := [authorIdCol], x := 0, y := 0 }

/-- The integer primary-key column of the Book fixture. -/
def bookIdCol : Column :=
  { id := "c-bk-id", name := "book_id", type := .INTEGER,
    primaryKey := true, nullable := false, unique := true, autoIncrement := false }

/-- The Book fixture table. -/
def bookTable : Table :=
  { id := "t-book", name := "Book", columns := [bookIdCol], x := 0, y := 0 }

/-- A 1:N Author-to-Book relationship with an optional target side. -/
def authorBookRel : Relationship :=
  { id := "r-ab", sourceTableId := "t-author", sourceColumnId := "c-au-id"
    targetTableId := "t-book", targetColumnId := "c-bk-id"
    cardinality := .oneToN, sourceOptional := false, targetOptional := true
    onDelete := .cascade, onUpdate := .cascade }

/-- The integer primary-key column of the Person fixture. -/
def personIdCol : Column :=
  { id := "c-pe-id", name := "person_id", type := .INTEGER,
    primaryKey := true, nullable := false, unique := true, autoIncrement := false }

/-- The Person fixture table. -/
def personTable : Table :=
  { id := "t-person", name := "Person", columns := [personIdCol], x := 0, y := 0 }

/-- The integer primary-key column of the Passport fixture. -/
def passportIdCol : Column :=
  { id := "c-pa-id", name := "passport_id", type := .INTEGER,
    primaryKey := true, nullable := false, unique := true, autoIncrement := false }

/-- The Passport fixture table. -/
def passportTable : Table :=
  { id := "t-passport", name := "Passport", columns := [passportIdCol], x := 0, y := 0 }

/-- A 1:1 Person-to-Passport relationship with both sides optional. -/
def personPassportRel : Relationship :=
  { id := "r-pp", sourceTableId := "t-person", sourceColumnId := "c-pe-id"
    targetTableId := "t-passport", targetColumnId := "c-pa-id"
    cardinality := .oneToOne, sourceOptional := true, targetOptional := true
    onDelete := .noAction, onUpdate := .noAction }

/-- A 1:N relationship whose declared source column id resolves to no
existing column (a dangling reference). -/
def orphanRel : Relationship :=
  { id := "r-orphan", sourceTableId := "t-author", sourceColumnId := "c-missing"
    targetTableId := "t-book", targetColumnId := "c-bk-id"
    cardinality := .oneToN, sourceOptional := false, targetOptional := false
    onDelete := .noAction, onUpdate := .noAction }

/-- A schema whose only relationship carries a dangling column reference. -/
def orphanSchema : Schema :=
  { tables := [authorTable, bookTable], relationships := [orphanRel] }

/-- A table evolves to another by keeping its identity fields and appending
only non-primary-key columns after the existing ones. -/
def TableLe (t t' : Table) : Prop :=
  t'.id = t.id ∧ t'.name = t.name ∧ t'.x = t.x ∧ t'.y = t.y ∧
  ∃ e : List Column, t'.columns = t.columns ++ e ∧ ∀ c ∈ e, c.primaryKey = false

/-- Pointwise evolution of a table list: same length and order, each table
evolved per `TableLe`. -/
def TablesLe (T T' : List Table) : Prop := List.Forall₂ TableLe T T'

/-- Total number of columns across a table list. -/
def totalColumns (tables : List Table) : Nat :=
  (tables.map (fun t => t.columns.length)).sum

/-- The declared column ids of a relationship resolve in the given tables
(whenever the endpoint table is found, its declared column is found). -/
def relColumnsOk (tables : List Table) (rel : Relationship) : Bool :=
  (match findTable tables rel.sourceTableId with
   | some t => (findColumnById t rel.sourceColumnId).isSome
   | none => true) &&
  (match findTable tables rel.targetTableId with
   | some t => (findColumnById t rel.targetColumnId).isSome
   | none => true)

/-- The id of the table the placement rule of `addForeignKeyFields` selects
as the FK destination (the "many"/required side): the target table for 1:N,
the source table for N:1, the optional side for 1:1 (target checked first),
and no table for an N:M or a both-required 1:1 relationship.  This mirrors
the switch over `rel.cardinality` and depends only on the relationship. -/
def fkDestinationId (rel : Relationship) : Option String :=
  match rel.cardinality with
  | .oneToN => some rel.targetTableId
  | .nToOne => some rel.sourceTableId
  | .oneToOne =>
    if rel.targetOptional then some rel.targetTableId
    else if rel.sourceOptional then some rel.sourceTableId
    else none
  | .nToM => none

/-- A table whose primary key is named cid, used by the C5 counterexample. -/
def cTable : Table :=
  { id := "C", name := "CT"
    columns := [{ id := "c1", name := "cid", type := .INTEGER, primaryKey := true,
                  nullable := false, unique := true, autoIncrement := false }]
    x := 0, y := 0 }

/-- A table whose primary key is named aid, used by the C5 counterexample. -/
def aTable : Table :=
  { id := "A", name := "AT"
    columns := [{ id := "a1", name := "aid", type := .INTEGER, primaryKey := true,
                  nullable := false, unique := true, autoIncrement := false }]
    x := 0, y := 0 }

/-- A table whose primary key is named bid, used by the C5 counterexample. -/
def bTable : Table :=
  { id := "B", name := "BT"
    columns := [{ id := "b1", name := "bid", type := .INTEGER, primaryKey := true,
                  nullable := false, unique := true, autoIncrement := false }]
    x := 0, y := 0 }

/-- A 1:N relationship whose declared target column id "fk-r2-B" dangles in
the input but coincides with the id of the FK column that `relNormal` makes
the resolver generate. -/
def relDangling : Relationship :=
  { id := "r1", sourceTableId := "C", sourceColumnId := "c1"
    targetTableId := "B", targetColumnId := "fk-r2-B"
    cardinality := .oneToN, sourceOptional := false, targetOptional := false
    onDelete := .noAction, onUpdate := .noAction }

/-- An ordinary resolvable 1:N relationship from aTable to bTable. -/
def relNormal : Relationship :=
  { id := "r2", sourceTableId := "A", sourceColumnId := "a1"
    targetTableId := "B", targetColumnId := "b1"
    cardinality := .oneToN, sourceOptional := false, targetOptional := false
    onDelete := .noAction, onUpdate := .noAction }

/-- The schema on which a second resolution pass adds one more column. -/
def trickySchema : Schema :=
  { tables := [cTable, aTable, bTable], relationships := [relDangling, relNormal] }

/-- C6: For every table whose columns use only the primary/non-primary
distinction (which is every `Table`, since columns carry no
multivalued/derived semantics), converting to conceptual mode and back
preserves every column's id, name and logical type, as well as the table's
own identity. -/
theorem c6_mode_roundtrip (t : Table) :
    (entityToTable (tableToEntity t)).id = t.id ∧
    (entityToTable (tableToEntity t)).name = t.name ∧
    (entityToTable (tableToEntity t)).columns.map (fun c => (c.id, c.name, c.type)) =
      t.columns.map (fun c => (c.id, c.name, c.type)) := by
  refine ⟨rfl, rfl, ?_⟩
  simp only [entityToTable, tableToEntity, List.map_map]
  apply List.map_congr_left
  intro c _
  simp

/-- C7 (amended): the generated text is the dialect/timestamp header followed
by a body that is a function of the schema alone; for a fixed clock reading
the output is fully determined by the input, and `generate` is total. -/
theorem c7_generate_deterministic_mod_header (s : Schema) :
    ∃ body : String, ∀ (d : SQLDialect) (now : String),
      generate d now s = generateHeader d now ++ "\n\n" ++ body := by
  refine ⟨String.join
      ((s.relationships.filter (fun rel => rel.cardinality == Cardinality.nToM)).map
        (fun rel => generateJunctionTable rel s.tables ++ "\n")) ++
    String.join
      ((addForeignKeyFields
          { tables := s.tables
            relationships :=
              s.relationships.filter
                (fun rel => rel.cardinality != Cardinality.nToM) }).tables.map
        (fun t => generateCreateTable t ++ "\n\n")) ++
    String.join
      ((s.relationships.filter (fun rel => rel.cardinality != Cardinality.nToM)).map
        (fun rel =>
          let s' := generateForeignKeyConstraint rel
            (addForeignKeyFields
              { tables := s.tables
                relationships :=
                  s.relationships.filter
                    (fun rel => rel.cardinality != Cardinality.nToM) }).tables
          if s' == "" then "" else s' ++ "\n")), fun d now => rfl⟩

/-- C7 counterexample: two invocations of `generate` on the same schema and
dialect but at different clock readings produce different output text, so
generation is not deterministic as a function of the schema and dialect
alone. -/
theorem c7_counterexample :
    generate SQLDialect.ACCESS "07.10.2025, 12:00:00" { tables := [], relationships := [] } ≠
      generate SQLDialect.ACCESS "08.10.2025, 12:00:00" { tables := [], relationships := [] } := by
  decide

/-- C3: evaluating the generator on the spec's concrete Customer/Invoice
scenario.  The resolution pass adds no column to Invoice (Invoice already has
a column named id, the source primary key's name, so the duplicate guard
fires), and the emitted constraint is
ALTER TABLE [Invoice] ... REFERENCES [Invoice]([id]) - the 1:N branch of
`generateForeignKeyConstraint` interpolates the target table into the
REFERENCES clause, not the source table its own comment promises - so the
DDL never references [Customer]. -/
theorem c3_scenario_evaluation :
    (addForeignKeyFields custInvoiceSchema).tables = custInvoiceSchema.tables ∧
    generateForeignKeyConstraint custInvoiceRel
        (addForeignKeyFields custInvoiceSchema).tables =
      "ALTER TABLE [Invoice]\n    ADD CONSTRAINT [FK_Invoice_Invoice] FOREIGN KEY ([id])\n    REFERENCES [Invoice]([id]);" ∧
    strIncludes (generate SQLDialect.ACCESS "07.10.2025, 12:00:00" custInvoiceSchema)
        "REFERENCES [Customer]" = false ∧
    strIncludes (generate SQLDialect.ACCESS "07.10.2025, 12:00:00" custInvoiceSchema)
        "REFERENCES [Invoice]([id])" = true := by
  refine ⟨by decide, by decide, by decide, by decide⟩

/-- Filtering a mapped list by a predicate that fails on every image yields
the empty list. -/
theorem filter_map_eq_nil {α β : Type} (f : α → β) (p : β → Bool) (l : List α)
    (h : ∀ a, p (f a) = false) : (l.map f).filter p = [] := by
  induction l with
  | nil => rfl
  | cons a l ih => simp [h a, ih]

/-- Counting the images surviving a filter that recognises exactly the images
of `t` counts the occurrences of `t`. -/
theorem filter_map_count {α β : Type} [DecidableEq α] (f : α → β) (p : β → Bool)
    (l : List α) (t : α) (h : ∀ a, p (f a) = (a == t)) :
    ((l.map f).filter p).length = l.count t := by
  induction l with
  | nil => rfl
  | cons a l ih =>
    simp only [List.map_cons, List.filter_cons]
    rw [h a]
    by_cases hat : a = t
    · subst hat
      simp [ih, List.count_cons]
    · have hf : (a == t) = false := by simp [hat]
      rw [hf]
      simp [ih, List.count_cons, hat]

/-- Comparing two add-primary-key remediations compares the bound tables. -/
theorem addConstraint_beq (tb t : Table) :
    (Remediation.addConstraint tb "PRIMARY_KEY" ==
      Remediation.addConstraint t "PRIMARY_KEY") = (tb == t) := by
  rw [Bool.eq_iff_iff]
  simp [beq_iff_eq]

/-- C9: in LOGICAL mode the advisory analysis reports exactly one
no_primary_key validation issue, of severity high and carrying an
add-primary-key remediation bound to the table, for every table without a
primaryKey-flagged column, and no such issue for tables that have one;
moreover every no_primary_key issue it reports is high-severity and bound to
some primary-key-less table of the schema. -/
theorem c9_no_pk_issues (tables : List Table) (entities : List Entity)
    (relationships : List Relationship) (crels : List ConceptualRelationship)
    (hnd : tables.Nodup) (t : Table) (ht : t ∈ tables) :
    ((analyzeSchema tables entities relationships crels "LOGICAL").2.filter
        (fun f => f.kind == "no_primary_key" && f.severity == "high" &&
          f.remediation == Remediation.addConstraint t "PRIMARY_KEY")).length =
      (if t.columns.any (fun c => c.primaryKey) then 0 else 1) ∧
    ∀ f ∈ (analyzeSchema tables entities relationships crels "LOGICAL").2,
      f.kind = "no_primary_key" →
        f.severity = "high" ∧ ∃ tb ∈ tables,
          (tb.columns.any (fun c => c.primaryKey)) = false ∧
          f.remediation = Remediation.addConstraint tb "PRIMARY_KEY" := by
  have hiss : (analyzeSchema tables entities relationships crels "LOGICAL").2 =
      noPkIssues tables ++ dupColIssues tables := rfl
  constructor
  · rw [hiss, List.filter_append, List.length_append]
    have hdup : (dupColIssues tables).filter
        (fun f => f.kind == "no_primary_key" && f.severity == "high" &&
          f.remediation == Remediation.addConstraint t "PRIMARY_KEY") = [] := by
      unfold dupColIssues
      apply filter_map_eq_nil
      intro tb
      simp
    rw [hdup, List.length_nil]
    unfold noPkIssues
    rw [filter_map_count _ _ _ t (fun tb => by simp [addConstraint_beq])]
    by_cases hpk : t.columns.any (fun c => c.primaryKey)
    · rw [if_pos hpk]
      have hcz : ((tables.filter
          (fun tb => !(tb.columns.any (fun col => col.primaryKey)))).count t) = 0 := by
        apply List.count_eq_zero_of_not_mem
        intro hmem
        have := (List.mem_filter.mp hmem).2
        simp [hpk] at this
      omega
    · rw [if_neg hpk]
      have hco : ((tables.filter
          (fun tb => !(tb.columns.any (fun col => col.primaryKey)))).count t) = 1 := by
        apply List.count_eq_one_of_mem (hnd.filter _)
        exact List.mem_filter.mpr ⟨ht, by simp [hpk]⟩
      omega
  · intro f hf hkind
    rw [hiss] at hf
    rcases List.mem_append.mp hf with hmem | hmem
    · unfold noPkIssues at hmem
      rcases List.mem_map.mp hmem with ⟨tb, htb, rfl⟩
      refine ⟨rfl, tb, (List.mem_filter.mp htb).1, ?_, rfl⟩
      have := (List.mem_filter.mp htb).2
      simpa using this
    · unfold dupColIssues at hmem
      rcases List.mem_map.mp hmem with ⟨tb, _, rfl⟩
      simp at hkind

/-- C9 witness: on a one-table schema whose table lacks a primary key, the
LOGICAL analysis yields exactly one matching no_primary_key issue. -/
theorem c9_witness :
    ((analyzeSchema [chairTable] [] [] [] "LOGICAL").2.filter
        (fun f => f.kind == "no_primary_key" && f.severity == "high" &&
          f.remediation == Remediation.addConstraint chairTable "PRIMARY_KEY")).length = 1 := by
  have h := c9_no_pk_issues [chairTable] [] [] []
    (List.nodup_singleton _) chairTable (by simp)
  simpa [chairTable] using h.1

/-- C2: for an N:M relationship whose endpoint tables both carry a primary
key, the synthesized junction DDL is exactly one CREATE TABLE named
source_target with two NOT NULL column definitions copying the endpoint
primary keys' names and (mapped) types, a composite PRIMARY KEY in
(source, target) order, and two FOREIGN KEY constraints referencing the
originating tables' primary keys; if either endpoint lacks a primary key,
nothing is emitted. -/
theorem c2_junction_shape (tables : List Table) (rel : Relationship)
    (sourceTable targetTable : Table)
    (hs : findTable tables rel.sourceTableId = some sourceTable)
    (ht : findTable tables rel.targetTableId = some targetTable) :
    (∀ sourcePK targetPK, findPK sourceTable = some sourcePK →
      findPK targetTable = some targetPK →
      generateJunctionTable rel tables =
        "CREATE TABLE [" ++ (sourceTable.name ++ "_" ++ targetTable.name) ++ "] (\n" ++
        "    [" ++ sourcePK.name ++ "] " ++ mapDataType sourcePK.type ++ " NOT NULL,\n" ++
        "    [" ++ targetPK.name ++ "] " ++ mapDataType targetPK.type ++ " NOT NULL,\n" ++
        "    CONSTRAINT [PK_" ++ (sourceTable.name ++ "_" ++ targetTable.name) ++
          "] PRIMARY KEY ([" ++ sourcePK.name ++ "], [" ++ targetPK.name ++ "]),\n" ++
        "    CONSTRAINT [FK_" ++ (sourceTable.name ++ "_" ++ targetTable.name) ++ "_" ++
          sourceTable.name ++ "] FOREIGN KEY ([" ++ sourcePK.name ++ "]) REFERENCES [" ++
          sourceTable.name ++ "]([" ++ sourcePK.name ++ "]),\n" ++
        "    CONSTRAINT [FK_" ++ (sourceTable.name ++ "_" ++ targetTable.name) ++ "_" ++
          targetTable.name ++ "] FOREIGN KEY ([" ++ targetPK.name ++ "]) REFERENCES [" ++
          targetTable.name ++ "]([" ++ targetPK.name ++ "])\n" ++
        ");\n\n") ∧
    ((findPK sourceTable = none ∨ findPK targetTable = none) →
      generateJunctionTable rel tables = "") := by
  constructor
  · intro sourcePK targetPK hspk htpk
    simp [generateJunctionTable, hs, ht, hspk, htpk]
  · rintro (h | h)
    · simp [generateJunctionTable, hs, ht, h]
    · cases hsp : findPK sourceTable with
      | none => simp [generateJunctionTable, hs, ht, hsp]
      | some sourcePK => simp [generateJunctionTable, hs, ht, hsp, h]

/-- C2 witness: the Student/Course N:M scenario produces the expected single
junction CREATE TABLE statement. -/
theorem c2_junction_shape_witness :
    generateJunctionTable stuCourseRel [studentTable, courseTable] =
      "CREATE TABLE [Student_Course] (\n    [id] INTEGER NOT NULL,\n    [id] INTEGER NOT NULL,\n    CONSTRAINT [PK_Student_Course] PRIMARY KEY ([id], [id]),\n    CONSTRAINT [FK_Student_Course_Student] FOREIGN KEY ([id]) REFERENCES [Student]([id]),\n    CONSTRAINT [FK_Student_Course_Course] FOREIGN KEY ([id]) REFERENCES [Course]([id])\n);\n\n" := by
  have h := (c2_junction_shape [studentTable, courseTable] stuCourseRel
    studentTable courseTable rfl rfl).1 studentIdCol courseIdCol rfl rfl
  rw [h]
  rfl

/-- C1: the FK-resolution pass places exactly the column the placement rule
dictates.  For a resolvable relationship (endpoint tables, declared columns
and primary keys all found): 1:N adds to the target table a column copying
the source primary key's name and unmapped type, N:1 symmetrically to the
source table, 1:1 follows the target-optional then source-optional side and
adds nothing when neither side is optional; every added column has
primaryKey=false, nullable = (sourceOptional or targetOptional), and
unique exactly when the cardinality is 1:1; a column is only added when the
destination does not already have one with the resolved name. -/
theorem c1_fk_placement (tables : List Table) (rel : Relationship)
    (sourceTable targetTable : Table) (sourcePK targetPK : Column)
    (hs : findTable tables rel.sourceTableId = some sourceTable)
    (ht : findTable tables rel.targetTableId = some targetTable)
    (hsc : (findColumnById sourceTable rel.sourceColumnId).isSome = true)
    (htc : (findColumnById targetTable rel.targetColumnId).isSome = true)
    (hspk : findPK sourceTable = some sourcePK)
    (htpk : findPK targetTable = some targetPK) :
    (rel.cardinality = .oneToN →
      (addForeignKeyFields { tables := tables, relationships := [rel] }).tables =
        if targetTable.columns.any (fun c => c.name == sourcePK.name) then tables
        else appendColumnToFirst tables rel.targetTableId
          { id := "fk-" ++ rel.id ++ "-" ++ rel.targetTableId, name := sourcePK.name,
            type := sourcePK.type, primaryKey := false,
            nullable := rel.sourceOptional || rel.targetOptional, unique := false,
            autoIncrement := false }) ∧
    (rel.cardinality = .nToOne →
      (addForeignKeyFields { tables := tables, relationships := [rel] }).tables =
        if sourceTable.columns.any (fun c => c.name == targetPK.name) then tables
        else appendColumnToFirst tables rel.sourceTableId
          { id := "fk-" ++ rel.id ++ "-" ++ rel.sourceTableId, name := targetPK.name,
            type := targetPK.type, primaryKey := false,
            nullable := rel.sourceOptional || rel.targetOptional, unique := false,
            autoIncrement := false }) ∧
    (rel.cardinality = .oneToOne → rel.targetOptional = true →
      (addForeignKeyFields { tables := tables, relationships := [rel] }).tables =
        if targetTable.columns.any (fun c => c.name == sourcePK.name) then tables
        else appendColumnToFirst tables rel.targetTableId
          { id := "fk-" ++ rel.id ++ "-" ++ rel.targetTableId, name := sourcePK.name,
            type := sourcePK.type, primaryKey := false,
            nullable := rel.sourceOptional || rel.targetOptional, unique := true,
            autoIncrement := false }) ∧
    (rel.cardinality = .oneToOne → rel.targetOptional = false → rel.sourceOptional = true →
      (addForeignKeyFields { tables := tables, relationships := [rel] }).tables =
        if sourceTable.columns.any (fun c => c.name == targetPK.name) then tables
        else appendColumnToFirst tables rel.sourceTableId
          { id := "fk-" ++ rel.id ++ "-" ++ rel.sourceTableId, name := targetPK.name,
            type := targetPK.type, primaryKey := false,
            nullable := rel.sourceOptional || rel.targetOptional, unique := true,
            autoIncrement := false }) ∧
    (rel.cardinality = .oneToOne → rel.targetOptional = false → rel.sourceOptional = false →
      (addForeignKeyFields { tables := tables, relationships := [rel] }).tables = tables) := by
  obtain ⟨sc, hsc'⟩ := Option.isSome_iff_exists.mp hsc
  obtain ⟨tc, htc'⟩ := Option.isSome_iff_exists.mp htc
  refine ⟨?_, ?_, ?_, ?_, ?_⟩
  · intro hc
    simp [addForeignKeyFields, addFKStep, hs, ht, hsc', htc', hspk, htpk, hc, mkFKColumn,
      show (Cardinality.oneToN == Cardinality.oneToOne) = false from rfl]
  · intro hc
    simp [addForeignKeyFields, addFKStep, hs, ht, hsc', htc', hspk, htpk, hc, mkFKColumn,
      show (Cardinality.nToOne == Cardinality.oneToOne) = false from rfl]
  · intro hc hto
    simp [addForeignKeyFields, addFKStep, hs, ht, hsc', htc', hspk, htpk, hc, hto, mkFKColumn]
  · intro hc hto hso
    simp [addForeignKeyFields, addFKStep, hs, ht, hsc', htc', hspk, htpk, hc, hto, hso,
      mkFKColumn]
  · intro hc hto hso
    simp [addForeignKeyFields, addFKStep, hs, ht, hsc', htc', hspk, htpk, hc, hto, hso]

/-- C1 witness: resolving a single 1:N Author-to-Book relationship appends to
Book a column copying the Author primary key's name and type. -/
theorem c1_fk_placement_witness :
    (addForeignKeyFields
        { tables := [authorTable, bookTable], relationships := [authorBookRel] }).tables =
      appendColumnToFirst [authorTable, bookTable] "t-book"
        { id := "fk-r-ab-t-book", name := "author_id", type := .AUTOINCREMENT,
          primaryKey := false, nullable := true, unique := false,
          autoIncrement := false } := by
  have h := (c1_fk_placement [authorTable, bookTable] authorBookRel
    authorTable bookTable authorIdCol bookIdCol rfl rfl rfl rfl rfl rfl).1 rfl
  rw [h]
  rfl

/-- C10: for a 1:1 relationship with both optionality flags set, the
target-optional branch wins in both generation paths: the FK-field pass puts
the column (copied from the source primary key) on the target table, and the
constraint pass emits its ALTER TABLE against the target table. -/
theorem c10_one_one_both_optional (tables : List Table) (rel : Relationship)
    (sourceTable targetTable : Table) (sourcePK targetPK : Column)
    (hs : findTable tables rel.sourceTableId = some sourceTable)
    (ht : findTable tables rel.targetTableId = some targetTable)
    (hsc : (findColumnById sourceTable rel.sourceColumnId).isSome = true)
    (htc : (findColumnById targetTable rel.targetColumnId).isSome = true)
    (hspk : findPK sourceTable = some sourcePK)
    (htpk : findPK targetTable = some targetPK)
    (hc : rel.cardinality = .oneToOne)
    (hso : rel.sourceOptional = true) (hto : rel.targetOptional = true) :
    ((addForeignKeyFields { tables := tables, relationships := [rel] }).tables =
      if targetTable.columns.any (fun c => c.name == sourcePK.name) then tables
      else appendColumnToFirst tables rel.targetTableId
        { id := "fk-" ++ rel.id ++ "-" ++ rel.targetTableId, name := sourcePK.name,
          type := sourcePK.type, primaryKey := false, nullable := true,
          unique := true, autoIncrement := false }) ∧
    ∃ rest, generateForeignKeyConstraint rel tables =
      "ALTER TABLE [" ++ targetTable.name ++ "]\n" ++ rest := by
  obtain ⟨sc, hsc'⟩ := Option.isSome_iff_exists.mp hsc
  obtain ⟨tc, htc'⟩ := Option.isSome_iff_exists.mp htc
  constructor
  · simp [addForeignKeyFields, addFKStep, hs, ht, hsc', htc', hspk, htpk, hc, hso, hto,
      mkFKColumn]
  · simp only [generateForeignKeyConstraint, hs, ht, hspk, htpk, hc, hto,
      show (Cardinality.oneToOne == Cardinality.nToM) = false from rfl,
      Bool.false_eq_true, if_false, if_true]
    split
    · split
      · simp only [String.append_assoc]
        exact ⟨_, rfl⟩
      · simp only [String.append_assoc]
        exact ⟨_, rfl⟩
    · split
      · simp only [String.append_assoc]
        exact ⟨_, rfl⟩
      · simp only [String.append_assoc]
        exact ⟨_, rfl⟩

/-- C10 witness: on a concrete 1:1 both-optional Person/Passport schema the
FK column lands on Passport and the ALTER TABLE is emitted for Passport. -/
theorem c10_one_one_both_optional_witness :
    (addForeignKeyFields
        { tables := [personTable, passportTable],
          relationships := [personPassportRel] }).tables =
      appendColumnToFirst [personTable, passportTable] "t-passport"
        { id := "fk-r-pp-t-passport", name := "person_id", type := .INTEGER,
          primaryKey := false, nullable := true, unique := true,
          autoIncrement := false } ∧
    ∃ rest, generateForeignKeyConstraint personPassportRel [personTable, passportTable] =
      "ALTER TABLE [" ++ passportTable.name ++ "]\n" ++ rest := by
  have h := c10_one_one_both_optional [personTable, passportTable] personPassportRel
    personTable passportTable personIdCol passportIdCol rfl rfl rfl rfl rfl rfl rfl rfl rfl
  constructor
  · rw [h.1]
    rfl
  · exact h.2

/-- A string headed by the ALTER TABLE keyword is not empty. -/
theorem alter_head_ne_empty (x : String) : "ALTER TABLE [" ++ x ≠ "" := by
  intro he
  have hd := congrArg String.data he
  rw [String.data_append] at hd
  have h1 := (List.append_eq_nil.mp hd).1
  exact absurd h1 (by decide)

/-- C4 (amended): the ALTER TABLE pass skips a non-N:M relationship exactly
when an endpoint table is missing, an endpoint table lacks a primary key, or
it is a 1:1 with neither side optional; in every other case it emits exactly
one ALTER TABLE statement, on the table the placement rule selects.  Unlike
the FK-field pass, it does not consult the relationship's declared column
ids, so a dangling column reference does not suppress the statement. -/
theorem c4_alter_emission (tables : List Table) (rel : Relationship)
    (_hnm : rel.cardinality ≠ .nToM) :
    ((findTable tables rel.sourceTableId = none ∨
        findTable tables rel.targetTableId = none) →
      generateForeignKeyConstraint rel tables = "") ∧
    (∀ sourceTable targetTable,
      findTable tables rel.sourceTableId = some sourceTable →
      findTable tables rel.targetTableId = some targetTable →
      (findPK sourceTable = none ∨ findPK targetTable = none) →
      generateForeignKeyConstraint rel tables = "") ∧
    (rel.cardinality = .oneToOne → rel.sourceOptional = false →
      rel.targetOptional = false →
      generateForeignKeyConstraint rel tables = "") ∧
    (∀ sourceTable targetTable sourcePK targetPK,
      findTable tables rel.sourceTableId = some sourceTable →
      findTable tables rel.targetTableId = some targetTable →
      findPK sourceTable = some sourcePK →
      findPK targetTable = some targetPK →
      (rel.cardinality = .oneToN →
        ∃ rest, generateForeignKeyConstraint rel tables =
          "ALTER TABLE [" ++ targetTable.name ++ "]\n" ++
          "    ADD CONSTRAINT [" ++ "FK_" ++ targetTable.name ++ "_" ++
            targetTable.name ++ "] FOREIGN KEY ([" ++ sourcePK.name ++ "])\n" ++
          "    REFERENCES [" ++ targetTable.name ++ "]([" ++
            sourcePK.name ++ "])" ++ rest ∧
          generateForeignKeyConstraint rel tables ≠ "") ∧
      (rel.cardinality = .nToOne →
        ∃ rest, generateForeignKeyConstraint rel tables =
          "ALTER TABLE [" ++ sourceTable.name ++ "]\n" ++
          "    ADD CONSTRAINT [" ++ "FK_" ++ sourceTable.name ++ "_" ++
            targetTable.name ++ "] FOREIGN KEY ([" ++ targetPK.name ++ "])\n" ++
          "    REFERENCES [" ++ targetTable.name ++ "]([" ++
            targetPK.name ++ "])" ++ rest ∧
          generateForeignKeyConstraint rel tables ≠ "") ∧
      (rel.cardinality = .oneToOne → rel.targetOptional = true →
        ∃ rest, generateForeignKeyConstraint rel tables =
          "ALTER TABLE [" ++ targetTable.name ++ "]\n" ++
          "    ADD CONSTRAINT [" ++ "FK_" ++ targetTable.name ++ "_" ++
            targetTable.name ++ "] FOREIGN KEY ([" ++ sourcePK.name ++ "])\n" ++
          "    REFERENCES [" ++ targetTable.name ++ "]([" ++
            sourcePK.name ++ "])" ++ rest ∧
          generateForeignKeyConstraint rel tables ≠ "") ∧
      (rel.cardinality = .oneToOne → rel.targetOptional = false →
        rel.sourceOptional = true →
        ∃ rest, generateForeignKeyConstraint rel tables =
          "ALTER TABLE [" ++ sourceTable.name ++ "]\n" ++
          "    ADD CONSTRAINT [" ++ "FK_" ++ sourceTable.name ++ "_" ++
            targetTable.name ++ "] FOREIGN KEY ([" ++ targetPK.name ++ "])\n" ++
          "    REFERENCES [" ++ targetTable.name ++ "]([" ++
            targetPK.name ++ "])" ++ rest ∧
          generateForeignKeyConstraint rel tables ≠ "")) := by
  refine ⟨?_, ?_, ?_, ?_⟩
  · rintro (h | h)
    · simp [generateForeignKeyConstraint, h]
    · cases hfs : findTable tables rel.sourceTableId with
      | none => simp [generateForeignKeyConstraint, hfs]
      | some sT => simp [generateForeignKeyConstraint, hfs, h]
  · intro sourceTable targetTable hs ht hpk
    rcases hpk with h | h
    · simp [generateForeignKeyConstraint, hs, ht, h]
    · cases hps : findPK sourceTable with
      | none => simp [generateForeignKeyConstraint, hs, ht, hps]
      | some sPK => simp [generateForeignKeyConstraint, hs, ht, hps, h]
  · intro hc hso hto
    cases hfs : findTable tables rel.sourceTableId with
    | none => simp [generateForeignKeyConstraint, hfs]
    | some sT =>
      cases hft : findTable tables rel.targetTableId with
      | none => simp [generateForeignKeyConstraint, hfs, hft]
      | some tT =>
        cases hps : findPK sT with
        | none => simp [generateForeignKeyConstraint, hfs, hft, hps]
        | some sPK =>
          cases hpt : findPK tT with
          | none => simp [generateForeignKeyConstraint, hfs, hft, hps, hpt]
          | some tPK =>
            simp [generateForeignKeyConstraint, hfs, hft, hps, hpt, hc, hso, hto,
              show (Cardinality.oneToOne == Cardinality.nToM) = false from rfl]
  · intro sourceTable targetTable sourcePK targetPK hs ht hps hpt
    refine ⟨?_, ?_, ?_, ?_⟩
    · intro hc
      simp only [generateForeignKeyConstraint, hs, ht, hps, hpt, hc,
        show (Cardinality.oneToN == Cardinality.nToM) = false from rfl,
        Bool.false_eq_true, if_false]
      split
      · split
        · simp only [String.append_assoc]
          exact ⟨_, rfl, alter_head_ne_empty _⟩
        · simp only [String.append_assoc]
          exact ⟨_, rfl, alter_head_ne_empty _⟩
      · split
        · simp only [String.append_assoc]
          exact ⟨_, rfl, alter_head_ne_empty _⟩
        · simp only [String.append_assoc]
          exact ⟨_, rfl, alter_head_ne_empty _⟩
    · intro hc
      simp only [generateForeignKeyConstraint, hs, ht, hps, hpt, hc,
        show (Cardinality.nToOne == Cardinality.nToM) = false from rfl,
        Bool.false_eq_true, if_false]
      split
      · split
        · simp only [String.append_assoc]
          exact ⟨_, rfl, alter_head_ne_empty _⟩
        · simp only [String.append_assoc]
          exact ⟨_, rfl, alter_head_ne_empty _⟩
      · split
        · simp only [String.append_assoc]
          exact ⟨_, rfl, alter_head_ne_empty _⟩
        · simp only [String.append_assoc]
          exact ⟨_, rfl, alter_head_ne_empty _⟩
    · intro hc hto
      simp only [generateForeignKeyConstraint, hs, ht, hps, hpt, hc, hto,
        show (Cardinality.oneToOne == Cardinality.nToM) = false from rfl,
        Bool.false_eq_true, if_false, if_true]
      split
      · split
        · simp only [String.append_assoc]
          exact ⟨_, rfl, alter_head_ne_empty _⟩
        · simp only [String.append_assoc]
          exact ⟨_, rfl, alter_head_ne_empty _⟩
      · split
        · simp only [String.append_assoc]
          exact ⟨_, rfl, alter_head_ne_empty _⟩
        · simp only [String.append_assoc]
          exact ⟨_, rfl, alter_head_ne_empty _⟩
    · intro hc hto hso
      simp only [generateForeignKeyConstraint, hs, ht, hps, hpt, hc, hto, hso,
        show (Cardinality.oneToOne == Cardinality.nToM) = false from rfl,
        Bool.false_eq_true, if_false, if_true]
      split
      · split
        · simp only [String.append_assoc]
          exact ⟨_, rfl, alter_head_ne_empty _⟩
        · simp only [String.append_assoc]
          exact ⟨_, rfl, alter_head_ne_empty _⟩
      · split
        · simp only [String.append_assoc]
          exact ⟨_, rfl, alter_head_ne_empty _⟩
        · simp only [String.append_assoc]
          exact ⟨_, rfl, alter_head_ne_empty _⟩

/-- C4 witness: the amended characterization applied to a resolvable 1:N
relationship emits its single ALTER TABLE on the target table, with the FK
column copied from the source primary key. -/
theorem c4_alter_emission_witness :
    ∃ rest, generateForeignKeyConstraint authorBookRel [authorTable, bookTable] =
      "ALTER TABLE [" ++ bookTable.name ++ "]\n" ++
      "    ADD CONSTRAINT [" ++ "FK_" ++ bookTable.name ++ "_" ++
        bookTable.name ++ "] FOREIGN KEY ([" ++ authorIdCol.name ++ "])\n" ++
      "    REFERENCES [" ++ bookTable.name ++ "]([" ++
        authorIdCol.name ++ "])" ++ rest ∧
      generateForeignKeyConstraint authorBookRel [authorTable, bookTable] ≠ "" := by
  exact ((c4_alter_emission [authorTable, bookTable] authorBookRel
    (by decide)).2.2.2 authorTable bookTable authorIdCol bookIdCol
    rfl rfl rfl rfl).1 rfl

/-- C4 counterexample: a 1:N relationship whose declared source column id is
dangling is skipped by the FK-field pass (the resolver adds no column), yet
the constraint pass still emits a nonempty ALTER TABLE statement and the
generated DDL contains it - contradicting the claim that every
resolver-skipped relationship yields zero ALTER TABLE statements. -/
theorem c4_counterexample :
    (addForeignKeyFields orphanSchema).tables = orphanSchema.tables ∧
    generateForeignKeyConstraint orphanRel (addForeignKeyFields orphanSchema).tables ≠ "" ∧
    strIncludes (generate SQLDialect.ACCESS "07.10.2025, 12:00:00" orphanSchema)
        "ALTER TABLE [Book]" = true := by
  refine ⟨by decide, by decide, by decide⟩

theorem tableLe_refl (t : Table) : TableLe t t :=
  ⟨Eq.refl _, Eq.refl _, Eq.refl _, Eq.refl _, [], by simp, by simp⟩

theorem tableLe_trans {a b c : Table} (h1 : TableLe a b) (h2 : TableLe b c) :
    TableLe a c := by
  obtain ⟨hi1, hn1, hx1, hy1, e1, hc1, hp1⟩ := h1
  obtain ⟨hi2, hn2, hx2, hy2, e2, hc2, hp2⟩ := h2
  refine ⟨hi2.trans hi1, hn2.trans hn1, hx2.trans hx1, hy2.trans hy1,
    e1 ++ e2, ?_, ?_⟩
  · rw [hc2, hc1, List.append_assoc]
  · intro col hcol
    rcases List.mem_append.mp hcol with h | h
    · exact hp1 col h
    · exact hp2 col h

theorem tablesLe_refl (T : List Table) : TablesLe T T := by
  induction T with
  | nil => exact List.Forall₂.nil
  | cons t rest ih => exact List.Forall₂.cons (tableLe_refl t) ih

theorem tablesLe_trans {A B C : List Table} (h1 : TablesLe A B) (h2 : TablesLe B C) :
    TablesLe A C := by
  induction h1 generalizing C with
  | nil =>
    cases h2
    exact List.Forall₂.nil
  | cons hab h1' ih =>
    cases h2 with
    | cons hbc h2' => exact List.Forall₂.cons (tableLe_trans hab hbc) (ih h2')

/-- A failed table lookup stays failed along evolution. -/
theorem findTable_none_of_tablesLe {T T' : List Table} (h : TablesLe T T')
    (tid : String) (hn : findTable T tid = none) : findTable T' tid = none := by
  induction h with
  | nil => rfl
  | cons hle hrest ih =>
    unfold findTable at *
    rename_i t t' l l'
    rw [List.find?_cons] at hn ⊢
    rw [hle.1]
    cases hid : (t.id == tid) with
    | true => rw [hid] at hn; cases hn
    | false =>
      rw [hid] at hn
      exact ih hn

/-- A successful table lookup evolves to a lookup of the evolved table. -/
theorem findTable_some_of_tablesLe {T T' : List Table} (h : TablesLe T T')
    (tid : String) {t : Table} (hf : findTable T tid = some t) :
    ∃ t', findTable T' tid = some t' ∧ TableLe t t' := by
  induction h with
  | nil => cases hf
  | cons hle hrest ih =>
    unfold findTable at *
    rename_i a a' l l'
    rw [List.find?_cons] at hf ⊢
    rw [hle.1]
    cases hid : (a.id == tid) with
    | true =>
      rw [hid] at hf
      cases hf
      exact ⟨a', rfl, hle⟩
    | false =>
      rw [hid] at hf
      exact ih hf

/-- The first primary-key column is unchanged by appending non-PK columns. -/
theorem findPK_of_tableLe {t t' : Table} (h : TableLe t t') : findPK t' = findPK t := by
  obtain ⟨_, _, _, _, e, hcols, hpk⟩ := h
  unfold findPK
  rw [hcols, List.find?_append]
  cases hf : t.columns.find? (fun c => c.primaryKey) with
  | some c => rfl
  | none =>
    simp only [Option.none_or]
    apply List.find?_eq_none.mpr
    intro c hc
    simp [hpk c hc]

/-- A successful column-by-id lookup survives appended columns. -/
theorem findColumnById_of_tableLe {t t' : Table} (h : TableLe t t') {cid : String}
    {c : Column} (hc : findColumnById t cid = some c) :
    findColumnById t' cid = some c := by
  obtain ⟨_, _, _, _, e, hcols, _⟩ := h
  unfold findColumnById at *
  rw [hcols, List.find?_append, hc]
  rfl

/-- Name presence is monotone along table evolution. -/
theorem anyName_of_tableLe {t t' : Table} (h : TableLe t t') {n : String}
    (ha : t.columns.any (fun c => c.name == n) = true) :
    t'.columns.any (fun c => c.name == n) = true := by
  obtain ⟨_, _, _, _, e, hcols, _⟩ := h
  rw [hcols, List.any_append, ha]
  rfl

/-- Appending a non-primary-key column to the first matching table is a
`TablesLe` evolution. -/
theorem tablesLe_appendColumnToFirst (T : List Table) (tid : String) (c : Column)
    (hpk : c.primaryKey = false) : TablesLe T (appendColumnToFirst T tid c) := by
  induction T with
  | nil => exact List.Forall₂.nil
  | cons t rest ih =>
    unfold appendColumnToFirst
    cases hid : (t.id == tid) with
    | true =>
      simp only [hid, if_true]
      refine List.Forall₂.cons ⟨rfl, rfl, rfl, rfl, [c], rfl, ?_⟩ (tablesLe_refl rest)
      intro x hx
      rcases List.mem_singleton.mp hx with rfl
      exact hpk
    | false =>
      simp only [hid, Bool.false_eq_true, if_false]
      exact List.Forall₂.cons (tableLe_refl t) ih

/-- One FK-resolution step either leaves the tables unchanged or appends a
single non-primary-key column to the first table with the resolved id. -/
theorem addFKStep_cases (T : List Table) (rel : Relationship) :
    addFKStep T rel = T ∨ ∃ tid c, c.primaryKey = false ∧
      fkDestinationId rel = some tid ∧
      addFKStep T rel = appendColumnToFirst T tid c := by
  cases hfs : findTable T rel.sourceTableId with
  | none => left; simp [addFKStep, hfs]
  | some sT =>
  cases hft : findTable T rel.targetTableId with
  | none => left; simp [addFKStep, hfs, hft]
  | some tT =>
  cases hcs : findColumnById sT rel.sourceColumnId with
  | none => left; simp [addFKStep, hfs, hft, hcs]
  | some c1 =>
  cases hct : findColumnById tT rel.targetColumnId with
  | none => left; simp [addFKStep, hfs, hft, hcs, hct]
  | some c2 =>
  cases hps : findPK sT with
  | none => left; simp [addFKStep, hfs, hft, hcs, hct, hps]
  | some sPK =>
  cases hpt : findPK tT with
  | none => left; simp [addFKStep, hfs, hft, hcs, hct, hps, hpt]
  | some tPK =>
  cases hcard : rel.cardinality with
  | nToM => left; simp [addFKStep, hfs, hft, hcs, hct, hps, hpt, hcard]
  | oneToN =>
    cases hany : tT.columns.any (fun c => c.name == sPK.name) with
    | true => left; simp [addFKStep, hfs, hft, hcs, hct, hps, hpt, hcard, hany]
    | false =>
      right
      exact ⟨rel.targetTableId, mkFKColumn rel rel.targetTableId sPK.name sPK, rfl,
        by simp [fkDestinationId, hcard],
        by simp [addFKStep, hfs, hft, hcs, hct, hps, hpt, hcard, hany]⟩
  | nToOne =>
    cases hany : sT.columns.any (fun c => c.name == tPK.name) with
    | true => left; simp [addFKStep, hfs, hft, hcs, hct, hps, hpt, hcard, hany]
    | false =>
      right
      exact ⟨rel.sourceTableId, mkFKColumn rel rel.sourceTableId tPK.name tPK, rfl,
        by simp [fkDestinationId, hcard],
        by simp [addFKStep, hfs, hft, hcs, hct, hps, hpt, hcard, hany]⟩
  | oneToOne =>
    cases hto : rel.targetOptional with
    | true =>
      cases hany : tT.columns.any (fun c => c.name == sPK.name) with
      | true => left; simp [addFKStep, hfs, hft, hcs, hct, hps, hpt, hcard, hto, hany]
      | false =>
        right
        exact ⟨rel.targetTableId, mkFKColumn rel rel.targetTableId sPK.name sPK, rfl,
          by simp [fkDestinationId, hcard, hto],
          by simp [addFKStep, hfs, hft, hcs, hct, hps, hpt, hcard, hto, hany]⟩
    | false =>
      cases hso : rel.sourceOptional with
      | true =>
        cases hany : sT.columns.any (fun c => c.name == tPK.name) with
        | true =>
          left; simp [addFKStep, hfs, hft, hcs, hct, hps, hpt, hcard, hto, hso, hany]
        | false =>
          right
          exact ⟨rel.sourceTableId, mkFKColumn rel rel.sourceTableId tPK.name tPK, rfl,
            by simp [fkDestinationId, hcard, hto, hso],
            by simp [addFKStep, hfs, hft, hcs, hct, hps, hpt, hcard, hto, hso, hany]⟩
      | false => left; simp [addFKStep, hfs, hft, hcs, hct, hps, hpt, hcard, hto, hso]

/-- One FK-resolution step is a `TablesLe` evolution. -/
theorem tablesLe_addFKStep (T : List Table) (rel : Relationship) :
    TablesLe T (addFKStep T rel) := by
  rcases addFKStep_cases T rel with h | ⟨tid, c, hpk, _, h⟩
  · rw [h]; exact tablesLe_refl T
  · rw [h]; exact tablesLe_appendColumnToFirst T tid c hpk

/-- The whole FK-resolution pass is a `TablesLe` evolution. -/
theorem tablesLe_foldl (rels : List Relationship) (T : List Table) :
    TablesLe T (List.foldl addFKStep T rels) := by
  induction rels generalizing T with
  | nil => exact tablesLe_refl T
  | cons r rs ih =>
    rw [List.foldl_cons]
    exact tablesLe_trans (tablesLe_addFKStep T r) (ih (addFKStep T r))

/-- Resolvability of a relationship's declared columns is monotone along
table evolution. -/
theorem relColumnsOk_mono {T T' : List Table} (h : TablesLe T T')
    (rel : Relationship) (hok : relColumnsOk T rel = true) :
    relColumnsOk T' rel = true := by
  unfold relColumnsOk at hok ⊢
  rw [Bool.and_eq_true] at hok ⊢
  obtain ⟨h1, h2⟩ := hok
  constructor
  · cases hfs : findTable T rel.sourceTableId with
    | none => rw [findTable_none_of_tablesLe h _ hfs]
    | some t =>
      have h1' : (findColumnById t rel.sourceColumnId).isSome = true := by
        rw [hfs] at h1; exact h1
      obtain ⟨c, hc⟩ := Option.isSome_iff_exists.mp h1'
      obtain ⟨t', hft', hle⟩ := findTable_some_of_tablesLe h _ hfs
      rw [hft']
      show (findColumnById t' rel.sourceColumnId).isSome = true
      rw [findColumnById_of_tableLe hle hc]
      rfl
  · cases hft : findTable T rel.targetTableId with
    | none => rw [findTable_none_of_tablesLe h _ hft]
    | some t =>
      have h2' : (findColumnById t rel.targetColumnId).isSome = true := by
        rw [hft] at h2; exact h2
      obtain ⟨c, hc⟩ := Option.isSome_iff_exists.mp h2'
      obtain ⟨t', hft', hle⟩ := findTable_some_of_tablesLe h _ hft
      rw [hft']
      show (findColumnById t' rel.targetColumnId).isSome = true
      rw [findColumnById_of_tableLe hle hc]
      rfl

/-- Appending a column to the first table with a given id is visible to a
lookup of that id. -/
theorem findTable_appendColumnToFirst (T : List Table) (tid : String) (c : Column)
    (t : Table) (hf : findTable T tid = some t) :
    findTable (appendColumnToFirst T tid c) tid =
      some { t with columns := t.columns ++ [c] } := by
  induction T with
  | nil => cases hf
  | cons t₀ rest ih =>
    unfold findTable at hf ⊢
    unfold appendColumnToFirst
    cases hid : (t₀.id == tid) with
    | true =>
      rw [List.find?_cons_of_pos rest
        (show (fun tb : Table => tb.id == tid) t₀ = true from hid)] at hf
      injection hf with heq
      subst heq
      simp only [hid, if_true]
      exact List.find?_cons_of_pos rest
        (show (fun tb : Table => tb.id == tid) _ = true from hid)
    | false =>
      rw [List.find?_cons_of_neg rest
        (show ¬((fun tb : Table => tb.id == tid) t₀ = true) from by simp [hid])] at hf
      simp only [hid, Bool.false_eq_true, if_false]
      rw [List.find?_cons_of_neg (appendColumnToFirst rest tid c)
        (show ¬((fun tb : Table => tb.id == tid) t₀ = true) from by simp [hid])]
      exact ih hf

/-- Once a relationship has been processed, any later evolution of the
resulting tables is a fixed point of its processing step: the lookups
resolve the same way and the duplicate-name guard fires. -/
theorem addFKStep_noop_later (T : List Table) (rel : Relationship)
    (T' : List Table) (hok : relColumnsOk T rel = true)
    (hT' : TablesLe (addFKStep T rel) T') : addFKStep T' rel = T' := by
  have hTT' : TablesLe T T' := tablesLe_trans (tablesLe_addFKStep T rel) hT'
  cases hfs : findTable T rel.sourceTableId with
  | none =>
    have hfs' := findTable_none_of_tablesLe hTT' _ hfs
    simp [addFKStep, hfs']
  | some sT =>
  obtain ⟨sT', hfs', hsLe⟩ := findTable_some_of_tablesLe hTT' _ hfs
  cases hft : findTable T rel.targetTableId with
  | none =>
    have hft' := findTable_none_of_tablesLe hTT' _ hft
    simp [addFKStep, hfs', hft']
  | some tT =>
  obtain ⟨tT', hft', htLe⟩ := findTable_some_of_tablesLe hTT' _ hft
  have hok' := hok
  unfold relColumnsOk at hok'
  rw [hfs, hft, Bool.and_eq_true] at hok'
  obtain ⟨h1, h2⟩ := hok'
  obtain ⟨cs, hcs⟩ := Option.isSome_iff_exists.mp h1
  obtain ⟨ct, hct⟩ := Option.isSome_iff_exists.mp h2
  have hcs' := findColumnById_of_tableLe hsLe hcs
  have hct' := findColumnById_of_tableLe htLe hct
  have hpkS := findPK_of_tableLe hsLe
  have hpkT := findPK_of_tableLe htLe
  cases hps : findPK sT with
  | none =>
    have hps' : findPK sT' = none := by rw [hpkS, hps]
    simp [addFKStep, hfs', hft', hcs', hct', hps']
  | some sPK =>
  have hps' : findPK sT' = some sPK := by rw [hpkS, hps]
  cases hpt : findPK tT with
  | none =>
    have hpt' : findPK tT' = none := by rw [hpkT, hpt]
    simp [addFKStep, hfs', hft', hcs', hct', hps', hpt']
  | some tPK =>
  have hpt' : findPK tT' = some tPK := by rw [hpkT, hpt]
  cases hcard : rel.cardinality with
  | nToM => simp [addFKStep, hfs', hft', hcs', hct', hcard]
  | oneToN =>
    have hpresent : tT'.columns.any (fun c => c.name == sPK.name) = true := by
      cases hany : tT.columns.any (fun c => c.name == sPK.name) with
      | true => exact anyName_of_tableLe htLe hany
      | false =>
        have hstep : addFKStep T rel = appendColumnToFirst T rel.targetTableId
            (mkFKColumn rel rel.targetTableId sPK.name sPK) := by
          simp [addFKStep, hfs, hft, hcs, hct, hps, hpt, hcard, hany]
        have hmid : findTable (addFKStep T rel) rel.targetTableId =
            some { tT with columns := tT.columns ++
              [mkFKColumn rel rel.targetTableId sPK.name sPK] } := by
          rw [hstep]
          exact findTable_appendColumnToFirst T _ _ tT hft
        obtain ⟨tmid', hfmid', hmidLe⟩ := findTable_some_of_tablesLe hT' _ hmid
        rw [hft'] at hfmid'
        injection hfmid' with heq
        subst heq
        apply anyName_of_tableLe hmidLe
        rw [List.any_append]
        simp [mkFKColumn]
    simp [addFKStep, hfs', hft', hcs', hct', hps', hpt', hcard, hpresent]
  | nToOne =>
    have hpresent : sT'.columns.any (fun c => c.name == tPK.name) = true := by
      cases hany : sT.columns.any (fun c => c.name == tPK.name) with
      | true => exact anyName_of_tableLe hsLe hany
      | false =>
        have hstep : addFKStep T rel = appendColumnToFirst T rel.sourceTableId
            (mkFKColumn rel rel.sourceTableId tPK.name tPK) := by
          simp [addFKStep, hfs, hft, hcs, hct, hps, hpt, hcard, hany]
        have hmid : findTable (addFKStep T rel) rel.sourceTableId =
            some { sT with columns := sT.columns ++
              [mkFKColumn rel rel.sourceTableId tPK.name tPK] } := by
          rw [hstep]
          exact findTable_appendColumnToFirst T _ _ sT hfs
        obtain ⟨smid', hfmid', hmidLe⟩ := findTable_some_of_tablesLe hT' _ hmid
        rw [hfs'] at hfmid'
        injection hfmid' with heq
        subst heq
        apply anyName_of_tableLe hmidLe
        rw [List.any_append]
        simp [mkFKColumn]
    simp [addFKStep, hfs', hft', hcs', hct', hps', hpt', hcard, hpresent]
  | oneToOne =>
    cases hto : rel.targetOptional with
    | true =>
      have hpresent : tT'.columns.any (fun c => c.name == sPK.name) = true := by
        cases hany : tT.columns.any (fun c => c.name == sPK.name) with
        | true => exact anyName_of_tableLe htLe hany
        | false =>
          have hstep : addFKStep T rel = appendColumnToFirst T rel.targetTableId
              (mkFKColumn rel rel.targetTableId sPK.name sPK) := by
            simp [addFKStep, hfs, hft, hcs, hct, hps, hpt, hcard, hto, hany]
          have hmid : findTable (addFKStep T rel) rel.targetTableId =
              some { tT with columns := tT.columns ++
                [mkFKColumn rel rel.targetTableId sPK.name sPK] } := by
            rw [hstep]
            exact findTable_appendColumnToFirst T _ _ tT hft
          obtain ⟨tmid', hfmid', hmidLe⟩ := findTable_some_of_tablesLe hT' _ hmid
          rw [hft'] at hfmid'
          injection hfmid' with heq
          subst heq
          apply anyName_of_tableLe hmidLe
          rw [List.any_append]
          simp [mkFKColumn]
      simp [addFKStep, hfs', hft', hcs', hct', hps', hpt', hcard, hto, hpresent]
    | false =>
      cases hso : rel.sourceOptional with
      | true =>
        have hpresent : sT'.columns.any (fun c => c.name == tPK.name) = true := by
          cases hany : sT.columns.any (fun c => c.name == tPK.name) with
          | true => exact anyName_of_tableLe hsLe hany
          | false =>
            have hstep : addFKStep T rel = appendColumnToFirst T rel.sourceTableId
                (mkFKColumn rel rel.sourceTableId tPK.name tPK) := by
              simp [addFKStep, hfs, hft, hcs, hct, hps, hpt, hcard, hto, hso, hany]
            have hmid : findTable (addFKStep T rel) rel.sourceTableId =
                some { sT with columns := sT.columns ++
                  [mkFKColumn rel rel.sourceTableId tPK.name tPK] } := by
              rw [hstep]
              exact findTable_appendColumnToFirst T _ _ sT hfs
            obtain ⟨smid', hfmid', hmidLe⟩ := findTable_some_of_tablesLe hT' _ hmid
            rw [hfs'] at hfmid'
            injection hfmid' with heq
            subst heq
            apply anyName_of_tableLe hmidLe
            rw [List.any_append]
            simp [mkFKColumn]
        simp [addFKStep, hfs', hft', hcs', hct', hps', hpt', hcard, hto, hso, hpresent]
      | false =>
        simp [addFKStep, hfs', hft', hcs', hct', hps', hpt', hcard, hto, hso]

/-- Folding the step over relationships that are all no-ops is the identity. -/
theorem foldl_addFKStep_noop (rels : List Relationship) (T₁ : List Table)
    (h : ∀ rel ∈ rels, addFKStep T₁ rel = T₁) :
    List.foldl addFKStep T₁ rels = T₁ := by
  induction rels with
  | nil => rfl
  | cons r rs ih =>
    rw [List.foldl_cons, h r (List.mem_cons_self r rs)]
    exact ih (fun rel hm => h rel (List.mem_cons_of_mem r hm))

/-- After one full resolution pass, every relationship of the pass whose
declared columns resolved in the initial tables has become a no-op. -/
theorem addFKStep_stable_after_pass (rels : List Relationship) :
    ∀ T : List Table, (∀ r ∈ rels, relColumnsOk T r = true) →
    ∀ rel ∈ rels,
      addFKStep (List.foldl addFKStep T rels) rel = List.foldl addFKStep T rels := by
  induction rels with
  | nil =>
    intro T _ rel hm
    cases hm
  | cons r rs ih =>
    intro T h rel hm
    rw [List.foldl_cons]
    rcases List.mem_cons.mp hm with rfl | hm'
    · exact addFKStep_noop_later T rel _ (h rel (List.mem_cons_self rel rs))
        (tablesLe_foldl rs (addFKStep T rel))
    · exact ih (addFKStep T r)
        (fun r' hr' => relColumnsOk_mono (tablesLe_addFKStep T r) r'
          (h r' (List.mem_cons_of_mem r hr')))
        rel hm'

/-- C5 (amended): when every relationship's declared source/target column ids
resolve to columns present in the input schema, FK resolution is idempotent -
a second pass changes nothing, so per-table column counts are unchanged.
(Without that proviso a dangling column id that coincides with a
resolver-generated FK column id can make a skipped relationship resolve on
the second pass; see the counterexample.) -/
theorem c5_resolve_idempotent (S : Schema)
    (H : ∀ rel ∈ S.relationships, relColumnsOk S.tables rel = true) :
    (addForeignKeyFields (addForeignKeyFields S)).tables.map
        (fun t => t.columns.length) =
      (addForeignKeyFields S).tables.map (fun t => t.columns.length) := by
  have htab : (addForeignKeyFields (addForeignKeyFields S)).tables =
      (addForeignKeyFields S).tables := by
    show List.foldl addFKStep (List.foldl addFKStep S.tables S.relationships)
        S.relationships = List.foldl addFKStep S.tables S.relationships
    exact foldl_addFKStep_noop S.relationships _
      (addFKStep_stable_after_pass S.relationships S.tables H)
  rw [htab]

/-- C5 witness: the Customer/Invoice scenario satisfies the column-resolution
proviso and resolving it twice leaves all column counts unchanged. -/
theorem c5_resolve_idempotent_witness :
    (∀ rel ∈ custInvoiceSchema.relationships,
      relColumnsOk custInvoiceSchema.tables rel = true) ∧
    (addForeignKeyFields (addForeignKeyFields custInvoiceSchema)).tables.map
        (fun t => t.columns.length) =
      (addForeignKeyFields custInvoiceSchema).tables.map
        (fun t => t.columns.length) :=
  ⟨by decide, c5_resolve_idempotent custInvoiceSchema (by decide)⟩

/-- C5 counterexample: resolving `trickySchema` twice is not idempotent with
respect to column count.  The first pass skips relDangling (its target
column id dangles) and adds an aid column with id "fk-r2-B" to bTable for
relNormal; on the second pass relDangling's target column id now resolves to
that generated column, so a cid column is also added and bTable's column
count grows from 2 to 3. -/
theorem c5_counterexample :
    (addForeignKeyFields (addForeignKeyFields trickySchema)).tables.map
        (fun t => t.columns.length) ≠
      (addForeignKeyFields trickySchema).tables.map
        (fun t => t.columns.length) := by
  decide

/-- One step adds at most one column in total. -/
theorem totalColumns_appendColumnToFirst (T : List Table) (tid : String)
    (c : Column) :
    totalColumns (appendColumnToFirst T tid c) ≤ totalColumns T + 1 := by
  induction T with
  | nil => simp [appendColumnToFirst, totalColumns]
  | cons t rest ih =>
    unfold appendColumnToFirst
    cases hid : (t.id == tid) with
    | true =>
      simp only [hid, if_true]
      simp [totalColumns]
      omega
    | false =>
      simp only [hid, Bool.false_eq_true, if_false]
      simp only [totalColumns, List.map_cons, List.sum_cons] at ih ⊢
      omega

/-- The resolution step grows the total column count by at most one. -/
theorem totalColumns_addFKStep (T : List Table) (rel : Relationship) :
    totalColumns (addFKStep T rel) ≤ totalColumns T + 1 := by
  rcases addFKStep_cases T rel with h | ⟨tid, c, _, _, h⟩
  · rw [h]; omega
  · rw [h]; exact totalColumns_appendColumnToFirst T tid c

/-- A pointwise-reflexive relation holds along the diagonal. -/
theorem forall₂_refl_of {α : Type} {R : α → α → Prop} (h : ∀ a, R a a) :
    ∀ l : List α, List.Forall₂ R l l
  | [] => List.Forall₂.nil
  | a :: l => List.Forall₂.cons (h a) (forall₂_refl_of h l)

/-- Composing two pointwise relations through a common middle list. -/
theorem forall₂_comp {α β γ : Type} {R1 : α → β → Prop} {R2 : β → γ → Prop}
    {A : List α} {B : List β} {C : List γ}
    (h1 : List.Forall₂ R1 A B) (h2 : List.Forall₂ R2 B C) :
    List.Forall₂ (fun a c => ∃ b, R1 a b ∧ R2 b c) A C := by
  induction h1 generalizing C with
  | nil =>
    cases h2
    exact List.Forall₂.nil
  | cons hab h1' ih =>
    cases h2 with
    | cons hbc h2' => exact List.Forall₂.cons ⟨_, hab, hbc⟩ (ih h2')

/-- `appendColumnToFirst` changes at most the first table whose id matches,
and only by appending the given column. -/
theorem appendColumnToFirst_frame (T : List Table) (tid : String) (c : Column) :
    List.Forall₂ (fun t t' => t' = t ∨
      (t.id = tid ∧ t' = { t with columns := t.columns ++ [c] }))
      T (appendColumnToFirst T tid c) := by
  induction T with
  | nil => exact List.Forall₂.nil
  | cons t rest ih =>
    unfold appendColumnToFirst
    cases hid : (t.id == tid) with
    | true =>
      simp only [hid, if_true]
      have hrest : List.Forall₂ (fun t t' : Table => t' = t ∨
          (t.id = tid ∧ t' = { t with columns := t.columns ++ [c] })) rest rest := by
        apply forall₂_refl_of
        intro a
        exact Or.inl rfl
      exact List.Forall₂.cons (Or.inr ⟨eq_of_beq hid, rfl⟩) hrest
    | false =>
      simp only [hid, Bool.false_eq_true, if_false]
      exact List.Forall₂.cons (Or.inl rfl) ih

/-- One resolution step evolves each table, and a table whose column list
changed is the FK destination the placement rule selects for the processed
relationship. -/
theorem addFKStep_frame (T : List Table) (rel : Relationship) :
    List.Forall₂ (fun t t' => TableLe t t' ∧
      (t'.columns ≠ t.columns → fkDestinationId rel = some t.id))
      T (addFKStep T rel) := by
  rcases addFKStep_cases T rel with h | ⟨tid, c, hpk, hdest, h⟩
  · rw [h]
    exact forall₂_refl_of (fun t => ⟨tableLe_refl t, fun hne => absurd rfl hne⟩) T
  · rw [h]
    refine List.Forall₂.imp ?_ (appendColumnToFirst_frame T tid c)
    intro a b hab
    rcases hab with rfl | ⟨hid, rfl⟩
    · exact ⟨tableLe_refl _, fun hne => absurd rfl hne⟩
    · refine ⟨⟨rfl, rfl, rfl, rfl, [c], rfl, ?_⟩, fun _ => by rw [hid]; exact hdest⟩
      intro x hx
      rcases List.mem_singleton.mp hx with rfl
      exact hpk

/-- The whole pass evolves each table, and a table whose column list changed
is the FK destination of some relationship of the pass. -/
theorem addForeignKeyFields_frame (rels : List Relationship) :
    ∀ T : List Table, List.Forall₂ (fun t t' => TableLe t t' ∧
      (t'.columns ≠ t.columns → ∃ rel ∈ rels, fkDestinationId rel = some t.id))
      T (List.foldl addFKStep T rels) := by
  induction rels with
  | nil =>
    intro T
    exact forall₂_refl_of (fun t => ⟨tableLe_refl t, fun hne => absurd rfl hne⟩) T
  | cons r rs ih =>
    intro T
    rw [List.foldl_cons]
    refine List.Forall₂.imp ?_ (forall₂_comp (addFKStep_frame T r) (ih (addFKStep T r)))
    intro a cc hac
    obtain ⟨b, ⟨hab, habd⟩, hbc, hbcd⟩ := hac
    refine ⟨tableLe_trans hab hbc, ?_⟩
    intro hne
    by_cases hcols : cc.columns = b.columns
    · refine ⟨r, List.mem_cons_self r rs, habd ?_⟩
      intro he
      exact hne (hcols.trans he)
    · obtain ⟨rel, hmem, hd⟩ := hbcd hcols
      have hid : b.id = a.id := hab.1
      exact ⟨rel, List.mem_cons_of_mem r hmem, by rw [← hid]; exact hd⟩

/-- C8: the FK-resolution pass is a pure frame-respecting transform: the
relationships list is returned unchanged; every input table keeps its id,
name and position with its original columns as an unchanged prefix (columns
are only ever appended, and only non-primary-key FK columns); only tables
that are the placement rule's FK destination for some relationship have a
changed column list; and at most one column is added per relationship in
total. -/
theorem c8_resolve_frame (S : Schema) :
    (addForeignKeyFields S).relationships = S.relationships ∧
    List.Forall₂ (fun t t' => TableLe t t' ∧
      (t'.columns ≠ t.columns →
        ∃ rel ∈ S.relationships, fkDestinationId rel = some t.id))
      S.tables (addForeignKeyFields S).tables ∧
    totalColumns (addForeignKeyFields S).tables ≤
      totalColumns S.tables + S.relationships.length := by
  refine ⟨rfl, addForeignKeyFields_frame S.relationships S.tables, ?_⟩
  show totalColumns (List.foldl addFKStep S.tables S.relationships) ≤ _
  have hbound : ∀ (rels : List Relationship) (T : List Table),
      totalColumns (List.foldl addFKStep T rels) ≤ totalColumns T + rels.length := by
    intro rels
    induction rels with
    | nil => intro T; simp
    | cons r rs ih =>
      intro T
      rw [List.foldl_cons]
      calc totalColumns (List.foldl addFKStep (addFKStep T r) rs)
          ≤ totalColumns (addFKStep T r) + rs.length := ih (addFKStep T r)
        _ ≤ (totalColumns T + 1) + rs.length := by
            have := totalColumns_addFKStep T r
            omega
        _ = totalColumns T + (r :: rs).length := by simp [List.length_cons]; omega
  exact hbound S.relationships S.tables

end SchemaBuilder
